import Mathlib

/-!
Verification of the anything2anything file-conversion tool.

The development shallowly embeds the classification / dispatch / invoker
layer of the repository (src/categories.py, src/dispatcher.py,
src/converters.py).  Pure Python functions become Lean functions on
`String`; `pathlib.Path` values are modelled by `PyPath` (a parent
directory string plus a final component name, with `suffix` and `stem`
computed exactly as pathlib computes them on the name); exceptions become
`Except` results carrying the exact message strings the code builds; the
external environment (which binaries `shutil.which` resolves, and the
captured result of `subprocess.run`) is an explicit `Env` record, and the
filesystem visible to the office invoker is an explicit list of paths.
-/

set_option maxRecDepth 100000
set_option linter.unusedVariables false

/-- Decidable equality for `Except` results, so concrete runs of the
embedded functions can be checked by `decide`. -/
instance {ε α : Type} [DecidableEq ε] [DecidableEq α] : DecidableEq (Except ε α) :=
  fun a b =>
    match a, b with
    | .ok x, .ok y =>
      if h : x = y then .isTrue (by rw [h])
      else .isFalse (fun hc => h (Except.ok.inj hc))
    | .error x, .error y =>
      if h : x = y then .isTrue (by rw [h])
      else .isFalse (fun hc => h (Except.error.inj hc))
    | .ok _, .error _ => .isFalse (fun hc => Except.noConfusion hc)
    | .error _, .ok _ => .isFalse (fun hc => Except.noConfusion hc)

/-- Python `str.lower()` restricted to the ASCII extensions this program
handles: lowercase every character. -/
def pyLower (s : String) : String := (s.toList.map Char.toLower).asString

/-- Python `str.lstrip(".")`: remove every leading dot character. -/
def pyLstripDot (s : String) : String :=
  (s.toList.dropWhile (fun c => c == '.')).asString

/-- Python `str.rfind('.')` on a character list: index of the last dot,
`none` when absent (Python returns -1). -/
def rfindDotIdx : List Char → Option Nat
  | [] => none
  | c :: cs =>
    match rfindDotIdx cs with
    | some i => some (i + 1)
    | none => if c == '.' then some 0 else none

/-- Pathlib `PurePath.suffix` computed from the final component `name`:
`name[i:]` when the last dot sits at index `i` with `0 < i < len - 1`,
otherwise the empty string. -/
def pySuffixOfName (name : String) : String :=
  let cs := name.toList
  match rfindDotIdx cs with
  | some i => if 0 < i ∧ i < cs.length - 1 then (cs.drop i).asString else ""
  | none => ""

/-- Pathlib `PurePath.stem` computed from the final component `name`:
`name[:i]` under the same condition as `pySuffixOfName`, else `name`. -/
def pyStemOfName (name : String) : String :=
  let cs := name.toList
  match rfindDotIdx cs with
  | some i => if 0 < i ∧ i < cs.length - 1 then (cs.take i).asString else name
  | none => name

/-- A `pathlib.Path`: the parent directory (as a string) and the final
component.  Structural equality matches `Path.__eq__` for the paths the
program compares, which always share the same parent. -/
structure PyPath where
  parent : String
  name : String
deriving DecidableEq

/-- Pathlib `Path.suffix` of a path. -/
def PyPath.suffix (p : PyPath) : String := pySuffixOfName p.name

/-- Pathlib `Path.stem` of a path. -/
def PyPath.stem (p : PyPath) : String := pyStemOfName p.name

/-- Python `str(path)`. -/
def renderPath (p : PyPath) : String := p.parent ++ "/" ++ p.name

/-- The closed `Category` enumeration of `src/categories.py`. -/
inductive Category where
  | Audio
  | Image
  | Video
  | Spreadsheet
  | Presentation
  | Document
deriving DecidableEq

/-- The `.value` string of each `Category` member. -/
def Category.value : Category → String
  | .Audio => "audio"
  | .Image => "image"
  | .Video => "video"
  | .Spreadsheet => "spreadsheet"
  | .Presentation => "presentation"
  | .Document => "document"

/-- Python `dict.get` on an association list (keys are unique). -/
def dictGet {α : Type} (table : List (String × α)) (k : String) : Option α :=
  (table.find? (fun kv => kv.1 == k)).map (fun kv => kv.2)

/-- The `EXTENSION_TO_CATEGORY` table of `src/categories.py`, in source
order. -/
def EXTENSION_TO_CATEGORY : List (String × Category) :=
  [("mp3", Category.Audio), ("wav", Category.Audio), ("m4a", Category.Audio),
   ("heic", Category.Image), ("jpg", Category.Image), ("jpeg", Category.Image),
   ("gif", Category.Image), ("icns", Category.Image), ("webp", Category.Image),
   ("avif", Category.Image),
   ("mov", Category.Video), ("mp4", Category.Video),
   ("csv", Category.Spreadsheet), ("ods", Category.Spreadsheet),
   ("xlsx", Category.Spreadsheet), ("xls", Category.Spreadsheet),
   ("xlsm", Category.Spreadsheet),
   ("odp", Category.Presentation), ("ppt", Category.Presentation),
   ("pptx", Category.Presentation),
   ("docx", Category.Document), ("doc", Category.Document),
   ("odt", Category.Document), ("txt", Category.Document),
   ("rtf", Category.Document)]

/-- The `EXTENSION_ALIASES` table of `src/categories.py`. -/
def EXTENSION_ALIASES : List (String × String) := [("jpeg", "jpg")]

/-- `normalize_extension` of `src/categories.py`: `ext.lstrip(".")`, then
`ext.lower()`, then `EXTENSION_ALIASES.get(ext, ext)`. -/
def normalize_extension (ext : String) : String :=
  let e1 := pyLstripDot ext
  let e2 := pyLower e1
  (dictGet EXTENSION_ALIASES e2).getD e2

/-- `get_extension` of `src/categories.py`: normalize the path suffix. -/
def get_extension (p : PyPath) : String := normalize_extension p.suffix

/-- Python `<` on strings: lexicographic comparison of code points, a
proper prefix ordering below its extensions. -/
def charListLt : List Char → List Char → Bool
  | [], [] => false
  | [], _ :: _ => true
  | _ :: _, [] => false
  | a :: as, b :: bs =>
    if a.toNat < b.toNat then true
    else if b.toNat < a.toNat then false
    else charListLt as bs

/-- Python string `<` lifted to `String`. -/
def strLt (s t : String) : Bool := charListLt s.toList t.toList

/-- The `sorted(set(EXTENSION_TO_CATEGORY.keys()))` value, via insertion
sort on the lexicographic string order (Python `sorted`). -/
def insertSorted (x : String) : List String → List String
  | [] => [x]
  | y :: ys => if strLt x y then x :: y :: ys else y :: insertSorted x ys

/-- Insertion sort on strings, ascending, as Python `sorted` orders them. -/
def sortStrings (l : List String) : List String := l.foldr insertSorted []

/-- Python `", ".join(items)`. -/
def joinCommaSep : List String → String
  | [] => ""
  | [x] => x
  | x :: xs => x ++ ", " ++ joinCommaSep xs

/-- The `", ".join(sorted(set(EXTENSION_TO_CATEGORY.keys())))` text used
in the unsupported-format message. -/
def sorted_supported_formats : String :=
  joinCommaSep (sortStrings ((EXTENSION_TO_CATEGORY.map Prod.fst).eraseDups))

/-- The exact `ValueError` message `get_category` raises for a normalized
extension outside the table. -/
def unsupportedMessage (ext : String) : String :=
  let ext_with_dot := if ext ≠ "" then "." ++ ext else "(no extension)"
  "Unsupported file format: " ++ ext_with_dot ++
    "\nSupported formats: " ++ sorted_supported_formats

/-- `get_category` of `src/categories.py`: table lookup on the normalized
extension; `ValueError` (here `Except.error` with the exact message) when
absent. -/
def get_category (p : PyPath) : Except String Category :=
  let ext := get_extension p
  match dictGet EXTENSION_TO_CATEGORY ext with
  | some c => Except.ok c
  | none => Except.error (unsupportedMessage ext)

/-- The typed failures of the dispatcher and the invokers.  The
constructors mirror the Python exception classes: `FileNotFoundError`,
`ValueError` (unsupported format, both sides), `CategoryMismatchError`,
`ToolNotFoundError`, `ConversionError` raised by a backend, and the
dispatcher's trailing `ConversionError` (its line 82), kept as a separate
constructor `noConverter` because claim analysis is about that very
branch. -/
inductive ConvError where
  | fileNotFound (msg : String)
  | valueError (msg : String)
  | categoryMismatch (msg : String)
  | toolNotFound (msg : String)
  | conversionFailed (msg : String)
  | noConverter (msg : String)
deriving DecidableEq

/-- Which backend function `convert_file` hands the request to. -/
inductive Converter where
  | audio
  | video
  | image
  | office
deriving DecidableEq

/-- The captured result of `subprocess.run(..., capture_output=True)`. -/
structure RunOutcome where
  returncode : Int
  stdout : String
  stderr : String

/-- The external environment of one conversion call: which binaries
`shutil.which` resolves, and the outcome of executing a command. -/
structure Env where
  tools : String → Bool
  run : List String → RunOutcome

/-- `check_tool_available` of `src/converters.py`: `shutil.which(tool_name)
is not None`. -/
def check_tool_available (env : Env) (tool_name : String) : Bool :=
  env.tools tool_name

/-- `run_command` of `src/converters.py`.  Executing a command whose
binary (its first element) is unresolvable raises `FileNotFoundError`,
translated to `ToolNotFoundError`; a non-zero exit builds the failure
message exactly as the code does and raises `ConversionError`. -/
def run_command (env : Env) (cmd : List String) (verbose : Bool)
    (tool_name : String) : Except ConvError Unit :=
  if check_tool_available env (cmd.headD "") = false then
    Except.error (ConvError.toolNotFound
      (tool_name ++ " not found in PATH. Please install it and ensure it\x27s available."))
  else
    let result := env.run cmd
    if result.returncode ≠ 0 then
      let m1 := tool_name ++ " failed with exit code " ++ toString result.returncode
      let m2 := if verbose || result.stderr ≠ "" then
          m1 ++ "\nError output:\n" ++ result.stderr else m1
      let m3 := if verbose && result.stdout ≠ "" then
          m2 ++ "\nStandard output:\n" ++ result.stdout else m2
      Except.error (ConvError.conversionFailed m3)
    else Except.ok Unit.unit

/-- `convert_audio` of `src/converters.py`: FFmpeg guard, then the codec
profile chosen by `output_path.suffix.lower().lstrip(".")`, then one
`run_command`. -/
def convert_audio (env : Env) (input_path output_path : PyPath)
    (verbose : Bool) : Except ConvError Unit :=
  if check_tool_available env "ffmpeg" = false then
    Except.error (ConvError.toolNotFound
      "FFmpeg is required for audio conversion. Please install it.")
  else
    let ext := pyLstripDot (pyLower output_path.suffix)
    let cmd := ["ffmpeg", "-i", renderPath input_path, "-y"]
    if ext = "mp3" then
      run_command env
        (cmd ++ ["-codec:a", "libmp3lame", "-q:a", "2", renderPath output_path])
        verbose "FFmpeg"
    else if ext = "wav" then
      run_command env (cmd ++ ["-codec:a", "pcm_s16le", renderPath output_path])
        verbose "FFmpeg"
    else if ext = "m4a" then
      run_command env
        (cmd ++ ["-codec:a", "aac", "-b:a", "192k", renderPath output_path])
        verbose "FFmpeg"
    else
      Except.error (ConvError.conversionFailed
        ("Unsupported audio output format: " ++ ext))

/-- `convert_video` of `src/converters.py`: FFmpeg guard, then the codec
profile for `mp4` or `mov`, then one `run_command`. -/
def convert_video (env : Env) (input_path output_path : PyPath)
    (verbose : Bool) : Except ConvError Unit :=
  if check_tool_available env "ffmpeg" = false then
    Except.error (ConvError.toolNotFound
      "FFmpeg is required for video conversion. Please install it.")
  else
    let ext := pyLstripDot (pyLower output_path.suffix)
    let cmd := ["ffmpeg", "-i", renderPath input_path, "-y"]
    if ext = "mp4" then
      run_command env
        (cmd ++ ["-codec:v", "libx264", "-codec:a", "aac", "-movflags",
          "+faststart", renderPath output_path]) verbose "FFmpeg"
    else if ext = "mov" then
      run_command env
        (cmd ++ ["-codec:v", "libx264", "-codec:a", "aac", renderPath output_path])
        verbose "FFmpeg"
    else
      Except.error (ConvError.conversionFailed
        ("Unsupported video output format: " ++ ext))

/-- `convert_image` of `src/converters.py`: ImageMagick guard, then the
two-argument command. -/
def convert_image (env : Env) (input_path output_path : PyPath)
    (verbose : Bool) : Except ConvError Unit :=
  if check_tool_available env "magick" = false then
    Except.error (ConvError.toolNotFound
      "ImageMagick is required for image conversion. Please install it.")
  else
    run_command env ["magick", renderPath input_path, renderPath output_path]
      verbose "ImageMagick"

/-- The filesystem visible to the office invoker after the tool ran: the
set of existing paths. -/
abbrev FS := List PyPath

/-- The target format string `convert_office` passes to LibreOffice:
`output_path.suffix.lstrip(".")` — the literal suffix, never lowercased
and never alias-folded. -/
def office_target_ext (output_path : PyPath) : String :=
  pyLstripDot output_path.suffix

/-- The `soffice` command `convert_office` builds. -/
def office_cmd (input_path output_path : PyPath) : List String :=
  ["soffice", "--headless", "--convert-to", office_target_ext output_path,
   "--outdir", output_path.parent, renderPath input_path]

/-- The artifact path LibreOffice is expected to produce:
`output_dir / (input stem + "." + target extension)`. -/
def office_expected_output (input_path output_path : PyPath) : PyPath :=
  ⟨output_path.parent, input_path.stem ++ "." ++ office_target_ext output_path⟩

/-- `convert_office` of `src/converters.py`: LibreOffice guard, one
`run_command`, existence check of the expected artifact in the post-run
filesystem `fs`, and a rename to the requested path exactly when the
expected artifact is a different path.  Returns the filesystem after the
call. -/
def convert_office (env : Env) (fs : FS) (input_path output_path : PyPath)
    (verbose : Bool) : Except ConvError FS :=
  if check_tool_available env "soffice" = false then
    Except.error (ConvError.toolNotFound
      "LibreOffice is required for office document conversion. Please install it.")
  else
    match run_command env (office_cmd input_path output_path) verbose "LibreOffice" with
    | Except.error e => Except.error e
    | Except.ok _ =>
      let expected_output := office_expected_output input_path output_path
      if expected_output ∈ fs then
        if expected_output ≠ output_path then
          Except.ok (output_path :: fs.filter (fun q => q ≠ expected_output))
        else
          Except.ok fs
      else
        Except.error (ConvError.conversionFailed
          ("LibreOffice did not produce expected output file: " ++
            renderPath expected_output))

/-- `convert_file` of `src/dispatcher.py`.  `input_exists` stands for
`input_path.exists()`.  The function returns which backend converter the
dispatch chain invokes; every raised exception becomes the corresponding
`ConvError`, with the exact message the code formats. -/
def convert_file (input_exists : Bool) (input_path output_path : PyPath)
    (verbose : Bool) : Except ConvError Converter :=
  if input_exists = false then
    Except.error (ConvError.fileNotFound
      ("Input file not found: " ++ renderPath input_path))
  else
    match get_category input_path with
    | Except.error e =>
      Except.error (ConvError.valueError ("Unsupported input format: " ++ e))
    | Except.ok input_category =>
      match get_category output_path with
      | Except.error e =>
        Except.error (ConvError.valueError ("Unsupported output format: " ++ e))
      | Except.ok output_category =>
        if input_category ≠ output_category then
          Except.error (ConvError.categoryMismatch
            ("Cannot convert between different categories.\nInput category: " ++
              input_category.value ++ "\nOutput category: " ++
              output_category.value ++
              "\nOnly conversions within the same category are supported."))
        else
          if input_category = Category.Audio then Except.ok Converter.audio
          else if input_category = Category.Video then Except.ok Converter.video
          else if input_category = Category.Image then Except.ok Converter.image
          else if input_category = Category.Document ∨
              input_category = Category.Spreadsheet ∨
              input_category = Category.Presentation then
            Except.ok Converter.office
          else
            Except.error (ConvError.noConverter
              ("No converter available for category: " ++ input_category.value))

/-- Spec-side reading of the normalization for claim C5, word for word:
strip ONE leading separator, lowercase, substitute the canonical spelling
if the result is a known alias. -/
def spec_normalize_one_separator (ext : String) : String :=
  let e1 := match ext.toList with
    | '.' :: rest => rest.asString
    | _ => ext
  let e2 := pyLower e1
  (dictGet EXTENSION_ALIASES e2).getD e2

/-- Spec-side normalization amended to what the code does: strip ALL
leading separators, lowercase, substitute the canonical spelling if the
result is a known alias. -/
def spec_normalize_all_separators (ext : String) : String :=
  let e1 := pyLstripDot ext
  let e2 := pyLower e1
  (dictGet EXTENSION_ALIASES e2).getD e2

/-- The dispatch target prescribed by the spec for claim C2: audio and
video to the media (FFmpeg) invoker family, image to the image invoker,
document, spreadsheet and presentation to the office invoker. -/
def specDispatchTarget : Category → Converter
  | Category.Audio => Converter.audio
  | Category.Video => Converter.video
  | Category.Image => Converter.image
  | Category.Document => Converter.office
  | Category.Spreadsheet => Converter.office
  | Category.Presentation => Converter.office

/-- The media (FFmpeg) invoker family of the spec. -/
def mediaFamily : Converter → Bool
  | Converter.audio => true
  | Converter.video => true
  | Converter.image => false
  | Converter.office => false

/-- C5 counterexample: `normalize_extension` does not equal the
composition that strips only one leading separator.  On `"..JPEG"` the
code strips both dots and alias-folds to `"jpg"`, while stripping one
separator leaves `".jpeg"`. -/
theorem normalize_extension_one_separator_counterexample :
    normalize_extension "..JPEG" ≠ spec_normalize_one_separator "..JPEG" := by
  decide

/-- C5 (amended): `normalize_extension` is pure and total, and for every
input string its result equals the composition: strip ALL leading
separators, lowercase, then substitute the canonical spelling if the
result is a known alias. -/
theorem normalize_extension_eq_spec_all_separators (ext : String) :
    normalize_extension ext = spec_normalize_all_separators ext := rfl

/-- C6: for every extension that is a key of the extension-to-category
table, `normalize_extension` is idempotent. -/
theorem normalize_extension_idempotent_on_table :
    ∀ x ∈ EXTENSION_TO_CATEGORY.map Prod.fst,
      normalize_extension (normalize_extension x) = normalize_extension x := by
  decide

/-- C6 witness: idempotence at the alias key `"jpeg"`. -/
theorem normalize_extension_idempotent_on_table_witness :
    normalize_extension (normalize_extension "jpeg") = normalize_extension "jpeg" :=
  normalize_extension_idempotent_on_table "jpeg" (by decide)

/-- C4: `get_category` returns the table category for every path whose
normalized extension is a key of the table, and for a normalized
extension outside the table it fails with the unsupported-format message,
which spells out the offending extension and the full sorted list of
supported extensions. -/
theorem get_category_total_over_table (p : PyPath) :
    (∀ c, dictGet EXTENSION_TO_CATEGORY (get_extension p) = some c →
      get_category p = Except.ok c) ∧
    (dictGet EXTENSION_TO_CATEGORY (get_extension p) = none →
      get_category p = Except.error (unsupportedMessage (get_extension p))) ∧
    unsupportedMessage (get_extension p) =
      "Unsupported file format: " ++
        (if get_extension p ≠ "" then "." ++ get_extension p else "(no extension)") ++
        "\nSupported formats: " ++ sorted_supported_formats := by
  refine ⟨fun c hc => ?_, fun hn => ?_, rfl⟩
  · simp [get_category, hc]
  · simp [get_category, hn]

/-- C4 witness: a supported extension resolves to its category and an
unsupported one fails with the constructed message. -/
theorem get_category_total_over_table_witness :
    get_category ⟨"/t", "a.mp3"⟩ = Except.ok Category.Audio ∧
    get_category ⟨"/t", "a.xyz"⟩ =
      Except.error (unsupportedMessage (get_extension ⟨"/t", "a.xyz"⟩)) :=
  ⟨(get_category_total_over_table ⟨"/t", "a.mp3"⟩).1 Category.Audio (by decide),
   (get_category_total_over_table ⟨"/t", "a.xyz"⟩).2.1 (by decide)⟩

/-- C10: a path whose filename has an empty pathlib suffix always makes
`get_category` fail with the unsupported-format message reporting
`(no extension)`, and such a path is never classifiable on either the
input or the output side of `convert_file`. -/
theorem get_category_no_extension (p q : PyPath) (v : Bool)
    (h : pySuffixOfName p.name = "") :
    get_category p = Except.error (unsupportedMessage "") ∧
    unsupportedMessage "" =
      "Unsupported file format: (no extension)\nSupported formats: " ++
        sorted_supported_formats ∧
    (∀ conv, convert_file true p q v ≠ Except.ok conv) ∧
    (∀ conv, convert_file true q p v ≠ Except.ok conv) := by
  have hext : get_extension p = "" := by
    simp only [get_extension, PyPath.suffix, h]
    decide
  have hc : get_category p = Except.error (unsupportedMessage "") := by
    simp only [get_category, hext]
    decide
  refine ⟨hc, rfl, fun conv => ?_, fun conv => ?_⟩
  · simp [convert_file, hc]
  · cases hq : get_category q with
    | error e => simp [convert_file, hq]
    | ok cq => simp [convert_file, hq, hc]

/-- C10 witness: the extension-less path `README` is rejected by
`get_category` and blocks `convert_file` on both sides. -/
theorem get_category_no_extension_witness :
    get_category ⟨"/tmp", "README"⟩ = Except.error (unsupportedMessage "") ∧
    convert_file true ⟨"/tmp", "README"⟩ ⟨"/tmp", "a.mp3"⟩ false ≠
      Except.ok Converter.audio ∧
    convert_file true ⟨"/tmp", "a.mp3"⟩ ⟨"/tmp", "README"⟩ false ≠
      Except.ok Converter.audio :=
  ⟨(get_category_no_extension ⟨"/tmp", "README"⟩ ⟨"/tmp", "a.mp3"⟩ false (by decide)).1,
   (get_category_no_extension ⟨"/tmp", "README"⟩ ⟨"/tmp", "a.mp3"⟩ false
      (by decide)).2.2.1 Converter.audio,
   (get_category_no_extension ⟨"/tmp", "README"⟩ ⟨"/tmp", "a.mp3"⟩ false
      (by decide)).2.2.2 Converter.audio⟩

/-- C1: when the input file exists and both paths classify but to
different categories, `convert_file` fails with the category-mismatch
error naming both categories, and never reaches any backend invoker. -/
theorem convert_file_category_mismatch (input_path output_path : PyPath)
    (v : Bool) (ci co : Category)
    (hi : get_category input_path = Except.ok ci)
    (ho : get_category output_path = Except.ok co)
    (hne : ci ≠ co) :
    convert_file true input_path output_path v =
      Except.error (ConvError.categoryMismatch
        ("Cannot convert between different categories.\nInput category: " ++
          ci.value ++ "\nOutput category: " ++ co.value ++
          "\nOnly conversions within the same category are supported.")) ∧
    ∀ conv, convert_file true input_path output_path v ≠ Except.ok conv := by
  have heq : convert_file true input_path output_path v =
      Except.error (ConvError.categoryMismatch
        ("Cannot convert between different categories.\nInput category: " ++
          ci.value ++ "\nOutput category: " ++ co.value ++
          "\nOnly conversions within the same category are supported.")) := by
    simp [convert_file, hi, ho, hne]
  exact ⟨heq, fun conv hconv => by rw [heq] at hconv; exact Except.noConfusion hconv⟩

/-- C1 witness: `song.mp3` to `photo.jpg` fails with the mismatch error
naming audio and image. -/
theorem convert_file_category_mismatch_witness :
    convert_file true ⟨"/tmp", "song.mp3"⟩ ⟨"/tmp", "photo.jpg"⟩ false =
      Except.error (ConvError.categoryMismatch
        ("Cannot convert between different categories.\nInput category: " ++
          Category.Audio.value ++ "\nOutput category: " ++ Category.Image.value ++
          "\nOnly conversions within the same category are supported.")) :=
  (convert_file_category_mismatch ⟨"/tmp", "song.mp3"⟩ ⟨"/tmp", "photo.jpg"⟩ false
    Category.Audio Category.Image (by decide) (by decide) (by decide)).1

/-- C2: when the input file exists and both paths classify to the same
category, `convert_file` routes to exactly the one backend the spec
assigns to that category: audio and video to the FFmpeg family, image to
the image invoker, document, spreadsheet and presentation to the office
invoker. -/
theorem convert_file_routes_by_category (input_path output_path : PyPath)
    (v : Bool) (c : Category)
    (hi : get_category input_path = Except.ok c)
    (ho : get_category output_path = Except.ok c) :
    convert_file true input_path output_path v =
      Except.ok (specDispatchTarget c) ∧
    (mediaFamily (specDispatchTarget c) = true ↔
      (c = Category.Audio ∨ c = Category.Video)) := by
  cases c <;> simp [convert_file, hi, ho, specDispatchTarget, mediaFamily]

/-- C2 witness: a document-to-document request is routed to the office
invoker. -/
theorem convert_file_routes_by_category_witness :
    convert_file true ⟨"/d", "a.docx"⟩ ⟨"/d", "b.odt"⟩ false =
      Except.ok (specDispatchTarget Category.Document) :=
  (convert_file_routes_by_category ⟨"/d", "a.docx"⟩ ⟨"/d", "b.odt"⟩ false
    Category.Document (by decide) (by decide)).1

/-- C8: the trailing no-converter branch of the dispatch chain is
unreachable: no call of `convert_file`, whatever its arguments, ever
produces the `noConverter` error, because the four converter branches
cover the whole six-element `Category` enumeration. -/
theorem convert_file_no_converter_unreachable (input_exists : Bool)
    (input_path output_path : PyPath) (v : Bool) (msg : String) :
    convert_file input_exists input_path output_path v ≠
      Except.error (ConvError.noConverter msg) := by
  cases input_exists
  · simp [convert_file]
  · cases hi : get_category input_path with
    | error e => simp [convert_file, hi]
    | ok ci =>
      cases ho : get_category output_path with
      | error e => simp [convert_file, hi, ho]
      | ok co =>
        by_cases hc : ci = co
        · subst hc
          cases ci <;> simp [convert_file, hi, ho]
        · simp [convert_file, hi, ho, hc]

/-- C7: every backend invoker whose required binary is unresolvable on
the search path fails with the tool-not-found error naming that tool,
whatever the rest of the request is: the conclusion holds for every
output path (even one whose extension no codec profile covers) and for
every possible run outcome, so the failure precedes command construction
and execution. -/
theorem invokers_fail_when_tool_missing (env : Env) (fs : FS)
    (input_path output_path : PyPath) (v : Bool) :
    (env.tools "ffmpeg" = false →
      convert_audio env input_path output_path v =
        Except.error (ConvError.toolNotFound
          "FFmpeg is required for audio conversion. Please install it.") ∧
      convert_video env input_path output_path v =
        Except.error (ConvError.toolNotFound
          "FFmpeg is required for video conversion. Please install it.")) ∧
    (env.tools "magick" = false →
      convert_image env input_path output_path v =
        Except.error (ConvError.toolNotFound
          "ImageMagick is required for image conversion. Please install it.")) ∧
    (env.tools "soffice" = false →
      convert_office env fs input_path output_path v =
        Except.error (ConvError.toolNotFound
          "LibreOffice is required for office document conversion. Please install it.")) := by
  refine ⟨fun h => ⟨?_, ?_⟩, fun h => ?_, fun h => ?_⟩ <;>
    simp [convert_audio, convert_video, convert_image, convert_office,
      check_tool_available, h]

/-- An environment with no resolvable binaries. -/
def envNoTools : Env := ⟨fun _ => false, fun _ => ⟨1, "", ""⟩⟩

/-- C7 witness: with no binaries resolvable, all four invokers fail with
their tool-not-found errors; the audio output even has an extension with
no codec profile, showing the guard precedes command construction. -/
theorem invokers_fail_when_tool_missing_witness :
    convert_audio envNoTools ⟨"/a", "x.m4a"⟩ ⟨"/a", "y.xyz"⟩ false =
      Except.error (ConvError.toolNotFound
        "FFmpeg is required for audio conversion. Please install it.") ∧
    convert_video envNoTools ⟨"/a", "x.m4a"⟩ ⟨"/a", "y.xyz"⟩ false =
      Except.error (ConvError.toolNotFound
        "FFmpeg is required for video conversion. Please install it.") ∧
    convert_image envNoTools ⟨"/a", "x.m4a"⟩ ⟨"/a", "y.xyz"⟩ false =
      Except.error (ConvError.toolNotFound
        "ImageMagick is required for image conversion. Please install it.") ∧
    convert_office envNoTools [] ⟨"/a", "x.m4a"⟩ ⟨"/a", "y.xyz"⟩ false =
      Except.error (ConvError.toolNotFound
        "LibreOffice is required for office document conversion. Please install it.") :=
  ⟨(invokers_fail_when_tool_missing envNoTools [] ⟨"/a", "x.m4a"⟩ ⟨"/a", "y.xyz"⟩
      false).1 rfl |>.1,
   (invokers_fail_when_tool_missing envNoTools [] ⟨"/a", "x.m4a"⟩ ⟨"/a", "y.xyz"⟩
      false).1 rfl |>.2,
   (invokers_fail_when_tool_missing envNoTools [] ⟨"/a", "x.m4a"⟩ ⟨"/a", "y.xyz"⟩
      false).2.1 rfl,
   (invokers_fail_when_tool_missing envNoTools [] ⟨"/a", "x.m4a"⟩ ⟨"/a", "y.xyz"⟩
      false).2.2 rfl⟩

/-- C3: when the office tool is resolvable, its run exits 0 and it wrote
its artifact at output-dir / (input stem + target extension), then if
that artifact path differs from the requested output path,
`convert_office` succeeds with the file present at exactly the requested
path and no longer at the tool-produced path; when the two paths
coincide, no rename occurs and the filesystem is returned unchanged. -/
theorem convert_office_rename_law (env : Env) (fs : FS)
    (input_path output_path : PyPath) (v : Bool)
    (htool : env.tools "soffice" = true)
    (hrun : (env.run (office_cmd input_path output_path)).returncode = 0)
    (hprod : office_expected_output input_path output_path ∈ fs) :
    (office_expected_output input_path output_path ≠ output_path →
      convert_office env fs input_path output_path v =
        Except.ok (output_path ::
          fs.filter (fun q => q ≠ office_expected_output input_path output_path)) ∧
      output_path ∈ (output_path ::
        fs.filter (fun q => q ≠ office_expected_output input_path output_path)) ∧
      office_expected_output input_path output_path ∉ (output_path ::
        fs.filter (fun q => q ≠ office_expected_output input_path output_path))) ∧
    (office_expected_output input_path output_path = output_path →
      convert_office env fs input_path output_path v = Except.ok fs) := by
  have hrc : run_command env (office_cmd input_path output_path) v "LibreOffice" =
      Except.ok Unit.unit := by
    simp only [office_cmd] at hrun
    simp [run_command, check_tool_available, office_cmd, htool, hrun]
  constructor
  · intro hne
    refine ⟨?_, List.mem_cons_self _ _, ?_⟩
    · simp [convert_office, check_tool_available, htool, hrc, hprod, hne]
    · simp [List.mem_cons, List.mem_filter, hne]
  · intro heq
    rw [heq] at hprod
    simp [convert_office, check_tool_available, htool, hrc, hprod, heq]

/-- An environment where every binary resolves and every run exits 0. -/
def envAllTools : Env := ⟨fun _ => true, fun _ => ⟨0, "", ""⟩⟩

/-- C3 witness: converting `report.docx` to `final.odt`, the tool writes
`report.odt` in the output directory and `convert_office` renames it to
the requested path. -/
theorem convert_office_rename_law_witness :
    convert_office envAllTools [⟨"/out", "report.odt"⟩] ⟨"/docs", "report.docx"⟩
        ⟨"/out", "final.odt"⟩ false =
      Except.ok (⟨"/out", "final.odt"⟩ ::
        ([⟨"/out", "report.odt"⟩] : FS).filter
          (fun q => q ≠ office_expected_output ⟨"/docs", "report.docx"⟩
            ⟨"/out", "final.odt"⟩)) :=
  ((convert_office_rename_law envAllTools [⟨"/out", "report.odt"⟩]
      ⟨"/docs", "report.docx"⟩ ⟨"/out", "final.odt"⟩ false rfl rfl
      (by decide)).1 (by decide)).1

/-- C9: `convert_office` takes the target format and the expected
artifact path from the literal output suffix with only the leading dot
stripped, with no lowercasing or alias folding, so an upper-case output
extension reaches the tool and the expected artifact in upper case even
though classification lowercases it. -/
theorem convert_office_literal_suffix_case (input_path output_path : PyPath) :
    office_cmd input_path output_path =
      ["soffice", "--headless", "--convert-to", pyLstripDot output_path.suffix,
       "--outdir", output_path.parent, renderPath input_path] ∧
    (office_expected_output input_path output_path).name =
      input_path.stem ++ "." ++ pyLstripDot output_path.suffix ∧
    office_target_ext ⟨"/out", "final.ODT"⟩ = "ODT" ∧
    office_expected_output ⟨"/docs", "report.docx"⟩ ⟨"/out", "final.ODT"⟩ =
      ⟨"/out", "report.ODT"⟩ ∧
    get_extension ⟨"/out", "final.ODT"⟩ = "odt" :=
  ⟨rfl, rfl, by decide, by decide, by decide⟩
